import Mathlib

/-!
Shallow embedding of the game-record alignment core of the SFS scraper
(src/unnamed/part_001 and src/backend/player-scrape.js).

JavaScript values flowing through the cleaning code are either trimmed cell
strings or `null` (a whole column can also be `null` when its extraction
failed).  A cell is therefore `Option String` (`none` = JS `null`) and a
column is a list of cells; a possibly-failed column extraction is
`Option Col`.
-/

namespace SFS

/-- A table cell: a trimmed text value, or the JS `null` absent marker. -/
abbrev Cell := Option String

/-- A raw column: one cell per table row, in document order. -/
abbrev Col := List Cell

/-- Embedding of line 114 of src/unnamed/part_001:
`game_numbers.map((num, index) => num !== '' ? index : null).filter(i => i !== null)`.
The JS `map` producing `index`-or-`null` followed by the non-null filter is
`mapIdx` into `Option Nat` followed by `reduceOption`.  Note that the JS test
`num !== ''` is also true of a `null` cell, hence the test `num ≠ some ""`. -/
def validIndices (game_numbers : Col) : List Nat :=
  (game_numbers.mapIdx fun index num => if num ≠ some "" then some index else none).reduceOption

/-- Embedding of line 115 of src/unnamed/part_001:
`const cleanData = arr => validIndices.map(i => arr[i] ?? null)`.
`arr[i] ?? null` is `null` when `i` is out of bounds (JS `undefined`) and also
when the stored cell is itself `null`; both are exactly `List.getD` with the
`none` fallback on nullable cells. -/
def cleanData (validIdx : List Nat) (arr : Col) : Col :=
  validIdx.map fun i => arr.getD i none

/-- Embedding of the location normalization on line 120 of src/unnamed/part_001
(line 152 of src/backend/player-scrape.js):
`loc => (loc === '@' ? 'Away' : 'Home')`, applied to the cells of the cleaned
location column.  JS `===` on a `null` cell and the string `'@'` is false, so
every non-`"@"` cell, the absent marker included, maps to `Home`. -/
def mapLocation (loc : Cell) : Cell :=
  if loc = some "@" then some "Away" else some "Home"

/-- The twenty-one basic columns extracted on lines 76-105 of
src/unnamed/part_001, under the names they are destructured to.  Each column
is `none` when its extraction failed (`?? null` / the catch handler on lines
86-89). -/
structure ExtractedStats where
  pts : Option Col := none
  ast : Option Col := none
  trb : Option Col := none
  orb : Option Col := none
  drb : Option Col := none
  stl : Option Col := none
  blk : Option Col := none
  tov : Option Col := none
  pf : Option Col := none
  game_score : Option Col := none
  fga : Option Col := none
  fg3a : Option Col := none
  fta : Option Col := none
  fgPct : Option Col := none
  fg3Pct : Option Col := none
  ftPct : Option Col := none
  opp_teams : Option Col := none
  minutes_played : Option Col := none
  game_numbers : Option Col := none
  game_dates : Option Col := none
  game_locations : Option Col := none

/-- The record returned on lines 133-140 of src/unnamed/part_001.  The four
cleaned columns are genuine lists; every other column is passed through as
extracted (possibly `none`). -/
structure PlayerResult where
  player : String
  team : String
  pts : Option Col
  ast : Option Col
  trb : Option Col
  orb : Option Col
  drb : Option Col
  stl : Option Col
  blk : Option Col
  tov : Option Col
  pf : Option Col
  game_score : Option Col
  fga : Option Col
  fg3a : Option Col
  fta : Option Col
  fgPct : Option Col
  fg3Pct : Option Col
  ftPct : Option Col
  opp_teams : Col
  minutes_played : Option Col
  game_numbers : Col
  game_dates : Col
  game_locations : Col
  usg_pct : Option Col
  player_or : Option Col

/-- The pure post-extraction core of `processPlayer` (lines 101-140 of
src/unnamed/part_001; lines 133-184 of src/backend/player-scrape.js are
line-for-line identical on this part).  It models:

* the guard on lines 108-112: a `null` (or non-array) `game_numbers` column
  makes the call return `null`;
* lines 114-120: `validIndices`, `cleanData` of the four game columns, and the
  location normalization;
* a `null` `opp_teams`, `game_dates` or `game_locations` column makes
  `cleanData` throw a TypeError in JS (`null[i]` on line 115), which the
  enclosing try/catch turns into a `null` return: this is the remaining
  `none` branch;
* lines 133-140: assembly of the returned record, all other columns passed
  through untouched.  The advanced columns (`usg_pct`, `player_or`, extracted
  on lines 125-129 with a `catch` to `null`) are parameters here.

The `extractedStats.includes(undefined)` guard on line 95 can never fire
(every extraction is `?? null`-guarded), so it has no counterpart here. -/
def processPlayerCore (player team : String) (ex : ExtractedStats)
    (usg_pct player_or : Option Col) : Option PlayerResult :=
  match ex.game_numbers with
  | none => none
  | some gns =>
      match ex.opp_teams, ex.game_dates, ex.game_locations with
      | some opps, some dates, some locs =>
          let vi := validIndices gns
          some { player := player, team := team,
                 pts := ex.pts, ast := ex.ast, trb := ex.trb, orb := ex.orb,
                 drb := ex.drb, stl := ex.stl, blk := ex.blk, tov := ex.tov,
                 pf := ex.pf, game_score := ex.game_score,
                 fga := ex.fga, fg3a := ex.fg3a, fta := ex.fta,
                 fgPct := ex.fgPct, fg3Pct := ex.fg3Pct, ftPct := ex.ftPct,
                 opp_teams := cleanData vi opps,
                 minutes_played := ex.minutes_played,
                 game_numbers := cleanData vi gns,
                 game_dates := cleanData vi dates,
                 game_locations := (cleanData vi locs).map mapLocation,
                 usg_pct := usg_pct, player_or := player_or }
      | _, _, _ => none

/-! Structural lemmas about the valid-index computation and the cleaning map. -/

theorem validIndices_nil : validIndices [] = [] := rfl

theorem validIndices_cons (v : Cell) (t : Col) :
    validIndices (v :: t) =
      (if v ≠ some "" then [0] else []) ++ (validIndices t).map (· + 1) := by
  have hshift :
      (t.mapIdx fun i num => if num ≠ some "" then some (i + 1) else none) =
        (t.mapIdx fun i num => if num ≠ some "" then some i else none).map
          (Option.map (· + 1)) := by
    apply List.ext_getElem?
    intro i
    simp only [List.getElem?_mapIdx, List.getElem?_map]
    cases t[i]? with
    | none => rfl
    | some a =>
        by_cases h : a = some "" <;> simp [h]
  unfold validIndices
  rw [List.mapIdx_cons]
  by_cases h : v = some ""
  · simp only [h, ne_eq, not_true_eq_false, if_neg, ite_false, reduceIte]
    rw [List.reduceOption_cons_of_none, hshift, List.reduceOption_map]
    simp [h]
  · simp only [if_pos h, ne_eq, not_false_eq_true, reduceIte]
    rw [List.reduceOption_cons_of_some, hshift, List.reduceOption_map]
    simp [h]

theorem validIndices_sorted (gns : Col) : (validIndices gns).Pairwise (· < ·) := by
  induction gns with
  | nil => simp [validIndices_nil]
  | cons v t ih =>
      rw [validIndices_cons]
      have hmap : ((validIndices t).map (· + 1)).Pairwise (· < ·) :=
        ih.map _ (fun a b hab => by omega)
      by_cases h : v = some ""
      · simpa [h] using hmap
      · simp only [ne_eq, h, not_false_eq_true, if_pos, List.singleton_append]
        refine List.Pairwise.cons ?_ hmap
        intro b hb
        obtain ⟨a, _, rfl⟩ := List.mem_map.mp hb
        omega

theorem mem_validIndices (gns : Col) (i : Nat) :
    i ∈ validIndices gns ↔ ∃ v, gns[i]? = some v ∧ v ≠ some "" := by
  induction gns generalizing i with
  | nil => simp [validIndices_nil]
  | cons w t ih =>
      rw [validIndices_cons]
      cases i with
      | zero =>
          by_cases h : w = some "" <;>
            simp [h, List.mem_map]
      | succ j =>
          by_cases h : w = some "" <;>
            simp [h, List.mem_map, ih j]

theorem length_validIndices (gns : Col) :
    (validIndices gns).length = gns.countP fun v => decide (v ≠ some "") := by
  induction gns with
  | nil => rfl
  | cons w t ih =>
      rw [validIndices_cons]
      by_cases h : w = some "" <;> simp [h, List.countP_cons, ih]

theorem validIndices_eq_range (gns : Col) (h : ∀ v ∈ gns, v ≠ some "") :
    validIndices gns = List.range gns.length := by
  induction gns with
  | nil => rfl
  | cons w t ih =>
      rw [validIndices_cons]
      have hw : w ≠ some "" := h w (List.mem_cons_self ..)
      rw [if_pos hw, ih (fun v hv => h v (List.mem_cons_of_mem _ hv))]
      simp [List.range_succ_eq_map, Nat.succ_eq_add_one]

theorem length_cleanData (vi : List Nat) (arr : Col) :
    (cleanData vi arr).length = vi.length := by
  simp [cleanData]

theorem getElem?_cleanData (vi : List Nat) (arr : Col) (k : Nat) :
    (cleanData vi arr)[k]? = vi[k]?.map fun i => arr.getD i none := by
  simp [cleanData]

theorem cleanData_range_self (arr : Col) :
    cleanData (List.range arr.length) arr = arr := by
  apply List.ext_getElem?
  intro i
  rw [getElem?_cleanData]
  by_cases hi : i < arr.length
  · rw [List.getElem?_range hi, List.getElem?_eq_getElem hi]
    simp [List.getD_eq_getElem?_getD, List.getElem?_eq_getElem hi]
  · rw [List.getElem?_eq_none (by simpa using le_of_not_lt hi),
      List.getElem?_eq_none (le_of_not_lt hi)]
    rfl

example :
    validIndices [some "1", some "", some "2", some "3"] = [0, 2, 3] := by
  decide

example :
    cleanData [0, 2, 3] [some "", some "@", some "@", some ""] =
      [some "", some "@", some ""] := by
  decide

example :
    (cleanData [0, 2, 3] [some "", some "@", some "@", some ""]).map mapLocation =
      [some "Home", some "Away", some "Home"] := by
  decide

/-- Success characterization: when the four game columns are present,
`processPlayerCore` returns the assembled record, whatever the other columns
hold and whatever the column lengths are. -/
theorem processPlayerCore_eq_some (player team : String) (ex : ExtractedStats)
    (u o : Option Col) (gns opps dates locs : Col)
    (hg : ex.game_numbers = some gns) (ho : ex.opp_teams = some opps)
    (hd : ex.game_dates = some dates) (hl : ex.game_locations = some locs) :
    processPlayerCore player team ex u o =
      some { player := player, team := team,
             pts := ex.pts, ast := ex.ast, trb := ex.trb, orb := ex.orb,
             drb := ex.drb, stl := ex.stl, blk := ex.blk, tov := ex.tov,
             pf := ex.pf, game_score := ex.game_score,
             fga := ex.fga, fg3a := ex.fg3a, fta := ex.fta,
             fgPct := ex.fgPct, fg3Pct := ex.fg3Pct, ftPct := ex.ftPct,
             opp_teams := cleanData (validIndices gns) opps,
             minutes_played := ex.minutes_played,
             game_numbers := cleanData (validIndices gns) gns,
             game_dates := cleanData (validIndices gns) dates,
             game_locations := (cleanData (validIndices gns) locs).map mapLocation,
             usg_pct := u, player_or := o } := by
  unfold processPlayerCore
  rw [hg, ho, hd, hl]

/-- Failure characterization: a missing game column makes the call fail. -/
theorem processPlayerCore_eq_none (player team : String) (ex : ExtractedStats)
    (u o : Option Col)
    (h : ex.game_numbers = none ∨ ex.opp_teams = none ∨ ex.game_dates = none ∨
      ex.game_locations = none) :
    processPlayerCore player team ex u o = none := by
  unfold processPlayerCore
  rcases h with h | h | h | h
  · rw [h]
  · cases hg : ex.game_numbers with
    | none => rfl
    | some gns => rw [h]
  · cases hg : ex.game_numbers with
    | none => rfl
    | some gns =>
        cases ho : ex.opp_teams with
        | none => rfl
        | some opps => rw [h]
  · cases hg : ex.game_numbers with
    | none => rfl
    | some gns =>
        cases ho : ex.opp_teams with
        | none => rfl
        | some opps =>
            cases hd : ex.game_dates with
            | none => rfl
            | some dates => rw [h]

/-! Claim theorems. -/

/-- C2: for every raw location value, the location-normalization mapping of
line 120 of src/unnamed/part_001 (line 152 of src/backend/player-scrape.js)
returns Away exactly when the value is the string "@", and Home for every
other value, the empty string and the null cell included; being a Lean
function into defined cells, the mapping is total and never fails. -/
theorem c2_location_mapping_totality (loc : Cell) :
    (mapLocation loc = some "Away" ↔ loc = some "@") ∧
      (loc ≠ some "@" → mapLocation loc = some "Home") := by
  unfold mapLocation
  by_cases h : loc = some "@" <;> simp [h]

/-- Witness for c2_location_mapping_totality at the raw values "@", the empty
string, and the null cell. -/
theorem c2_location_mapping_totality_witness :
    mapLocation (some "@") = some "Away" ∧ mapLocation (some "") = some "Home" ∧
      mapLocation none = some "Home" :=
  ⟨(c2_location_mapping_totality (some "@")).1.mpr rfl,
   (c2_location_mapping_totality (some "")).2 (by decide),
   (c2_location_mapping_totality none).2 (by decide)⟩

/-- C3: the aligner preserves the relative order of the valid rows.  If
positions k < l of the valid-index list hold input row indices a and b, then
a < b (the index list is strictly increasing), and the k-th cell of any
cleaned column is exactly the input cell of row a, so the record derived from
the earlier valid row precedes the record derived from the later one. -/
theorem c3_order_preservation (gns arr : Col) (k l a b : Nat) (hkl : k < l)
    (ha : (validIndices gns)[k]? = some a)
    (hb : (validIndices gns)[l]? = some b) :
    a < b ∧ (cleanData (validIndices gns) arr)[k]? = some (arr.getD a none) := by
  obtain ⟨hk, hak⟩ := List.getElem?_eq_some_iff.mp ha
  obtain ⟨hl2, hbl⟩ := List.getElem?_eq_some_iff.mp hb
  refine ⟨?_, ?_⟩
  · have hp := validIndices_sorted gns
    have hlt := List.pairwise_iff_getElem.mp hp k l hk hl2 hkl
    rwa [hak, hbl] at hlt
  · rw [getElem?_cleanData, ha]
    rfl

/-- Witness for c3_order_preservation on the presence-key column
["1", "", "2"]: valid rows 0 and 2, output positions 0 and 1. -/
theorem c3_order_preservation_witness :
    (0 : Nat) < 2 ∧
      (cleanData (validIndices [some "1", some "", some "2"])
          [some "x", some "y", some "z"])[0]? = some (some "x") :=
  c3_order_preservation [some "1", some "", some "2"]
    [some "x", some "y", some "z"] 0 1 0 2 (by decide) (by decide) (by decide)

/-- C6: a non-key column shorter than the presence-key column does not make
the aligner fail: the call still succeeds, and any cleaned position whose
source row index lies beyond the short column's length holds the null absent
marker. -/
theorem c6_short_column_absent_marker (player team : String) (ex : ExtractedStats)
    (u o : Option Col) (gns opps dates locs : Col)
    (hg : ex.game_numbers = some gns) (ho : ex.opp_teams = some opps)
    (hd : ex.game_dates = some dates) (hl : ex.game_locations = some locs)
    (k i : Nat) (hk : (validIndices gns)[k]? = some i) (hi : opps.length ≤ i) :
    (processPlayerCore player team ex u o).map (fun r => r.opp_teams[k]?) =
      some (some none) := by
  rw [processPlayerCore_eq_some player team ex u o gns opps dates locs hg ho hd hl]
  show some ((cleanData (validIndices gns) opps)[k]?) = some (some none)
  rw [getElem?_cleanData, hk]
  simp [List.getD_eq_getElem?_getD, List.getElem?_eq_none hi]

/-- Witness for c6_short_column_absent_marker: the spec's partial-data
scenario, presence-key column ["1","2","3"] and the two-entry stat column
["10","11"]; the third record's value (position 2, source row 2) is the
absent marker. -/
theorem c6_short_column_absent_marker_witness :
    (validIndices [some "1", some "2", some "3"])[2]? = some 2 ∧
      (processPlayerCore "p" "t"
          { game_numbers := some [some "1", some "2", some "3"],
            opp_teams := some [some "10", some "11"],
            game_dates := some [some "a", some "b", some "c"],
            game_locations := some [some "", some "", some ""] }
          none none).map (fun r => r.opp_teams[2]?) = some (some none) :=
  ⟨by decide,
   c6_short_column_absent_marker "p" "t" _ none none
     [some "1", some "2", some "3"] [some "10", some "11"]
     [some "a", some "b", some "c"] [some "", some "", some ""]
     rfl rfl rfl rfl 2 2 (by decide) (by decide)⟩

/-- C7: when the presence-key column is absent (a null extraction, the JS
not-an-array guard on lines 108-112 of src/unnamed/part_001), processPlayer
returns the caller-visible null failure result, never a successful (possibly
empty) record. -/
theorem c7_missing_presence_key (player team : String) (ex : ExtractedStats)
    (u o : Option Col) (h : ex.game_numbers = none) :
    processPlayerCore player team ex u o = none :=
  processPlayerCore_eq_none player team ex u o (Or.inl h)

/-- Witness for c7_missing_presence_key: all extractions failed. -/
theorem c7_missing_presence_key_witness :
    processPlayerCore "LeBron James" "LAL" {} none none = none :=
  c7_missing_presence_key "LeBron James" "LAL" {} none none rfl

/-- C8: the spec's concrete scenario.  With presence-key column
["1", "", "2", "3"] and location column ["", "@", "@", ""], the aligner
returns exactly 3 records whose locations are Home, Away, Home in order (row
index 1, whose presence key is empty, is dropped). -/
theorem c8_concrete_scenario :
    (processPlayerCore "LeBron James" "LAL"
        { game_numbers := some [some "1", some "", some "2", some "3"],
          opp_teams := some [some "BOS", some "MIA", some "DEN", some "PHX"],
          game_dates := some [some "d1", some "d2", some "d3", some "d4"],
          game_locations := some [some "", some "@", some "@", some ""] }
        none none).map
        (fun r => (r.game_numbers.length, r.game_locations)) =
      some (3, [some "Home", some "Away", some "Home"]) := by
  rfl

/-- C9: the filtering step touches only the four game columns; every other
extracted column (pts, ast, trb, minutes_played, the advanced columns, and
the rest) is returned exactly as extracted, placeholder rows included. -/
theorem c9_frame_untouched_columns (player team : String) (ex : ExtractedStats)
    (u o : Option Col) (gns opps dates locs : Col)
    (hg : ex.game_numbers = some gns) (ho : ex.opp_teams = some opps)
    (hd : ex.game_dates = some dates) (hl : ex.game_locations = some locs) :
    (processPlayerCore player team ex u o).map
        (fun r => (r.pts, r.ast, r.trb, r.orb, r.drb, r.stl, r.blk, r.tov, r.pf,
          r.game_score, r.fga, r.fg3a, r.fta, r.fgPct, r.fg3Pct, r.ftPct,
          r.minutes_played, r.usg_pct, r.player_or)) =
      some (ex.pts, ex.ast, ex.trb, ex.orb, ex.drb, ex.stl, ex.blk, ex.tov, ex.pf,
        ex.game_score, ex.fga, ex.fg3a, ex.fta, ex.fgPct, ex.fg3Pct, ex.ftPct,
        ex.minutes_played, u, o) := by
  rw [processPlayerCore_eq_some player team ex u o gns opps dates locs hg ho hd hl]
  rfl

/-- Witness for c9_frame_untouched_columns: a pts column with a placeholder
row and two valid rows is passed through at full length. -/
theorem c9_frame_untouched_columns_witness :
    (processPlayerCore "p" "t"
        { pts := some [some "10", some "", some "12"],
          game_numbers := some [some "1", some "", some "2"],
          opp_teams := some [some "BOS", some "", some "DEN"],
          game_dates := some [some "a", some "b", some "c"],
          game_locations := some [some "", some "@", some "@"] }
        none none).map
        (fun r => (r.pts, r.ast, r.trb, r.orb, r.drb, r.stl, r.blk, r.tov, r.pf,
          r.game_score, r.fga, r.fg3a, r.fta, r.fgPct, r.fg3Pct, r.ftPct,
          r.minutes_played, r.usg_pct, r.player_or)) =
      some (some [some "10", some "", some "12"], none, none, none, none, none,
        none, none, none, none, none, none, none, none, none, none, none,
        none, none) :=
  c9_frame_untouched_columns "p" "t" _ none none
    [some "1", some "", some "2"] [some "BOS", some "", some "DEN"]
    [some "a", some "b", some "c"] [some "", some "@", some "@"]
    rfl rfl rfl rfl

/-- C10: after a successful alignment of a raw extraction (whose cells are
all genuine strings, as textContent.trim always yields a string), every cell
of the returned game_numbers column is a non-empty string: neither the null
marker nor the empty string. -/
theorem c10_game_numbers_nonempty (player team : String) (ex : ExtractedStats)
    (u o : Option Col) (gns : Col) (hg : ex.game_numbers = some gns)
    (hcells : ∀ w ∈ gns, w ≠ (none : Cell)) (r : PlayerResult)
    (h : processPlayerCore player team ex u o = some r) (v : Cell)
    (hv : v ∈ r.game_numbers) : v ≠ (none : Cell) ∧ v ≠ some "" := by
  cases ho : ex.opp_teams with
  | none =>
      rw [processPlayerCore_eq_none player team ex u o (Or.inr (Or.inl ho))] at h
      cases h
  | some opps =>
  cases hd : ex.game_dates with
  | none =>
      rw [processPlayerCore_eq_none player team ex u o
        (Or.inr (Or.inr (Or.inl hd)))] at h
      cases h
  | some dates =>
  cases hl : ex.game_locations with
  | none =>
      rw [processPlayerCore_eq_none player team ex u o
        (Or.inr (Or.inr (Or.inr hl)))] at h
      cases h
  | some locs =>
  rw [processPlayerCore_eq_some player team ex u o gns opps dates locs
    hg ho hd hl] at h
  obtain rfl := (Option.some.inj h).symm
  have hv' : v ∈ (validIndices gns).map (fun i => gns.getD i none) := hv
  obtain ⟨i, hiv, rfl⟩ := List.mem_map.mp hv'
  obtain ⟨w, hw, hwne⟩ := (mem_validIndices gns i).mp hiv
  have hwmem : w ∈ gns := List.getElem?_mem hw
  rw [List.getD_eq_getElem?_getD, hw]
  exact ⟨hcells w hwmem, hwne⟩

/-- Witness for c10_game_numbers_nonempty on the presence-key column
["1", "", "2"]: the cell some "1" of the aligned output. -/
theorem c10_game_numbers_nonempty_witness :
    (some "1" : Cell) ≠ (none : Cell) ∧ (some "1" : Cell) ≠ some "" :=
  c10_game_numbers_nonempty "p" "t"
    { game_numbers := some [some "1", some "", some "2"],
      opp_teams := some [some "BOS", some "MIA", some "DEN"],
      game_dates := some [some "a", some "b", some "c"],
      game_locations := some [some "", some "@", some "@"] }
    none none [some "1", some "", some "2"] rfl (by decide) _ rfl
    (some "1") (by decide)

/-- C1 as stated is refuted: on an input with two rows of which one is valid
(K = 1), the aligner returns one game-number record but the pts statistic
column of the returned result keeps both rows, so not every statistic column
of the result has length K. -/
theorem c1_counterexample :
    (processPlayerCore "p" "t"
        { pts := some [some "10", some "0"],
          game_numbers := some [some "1", some ""],
          opp_teams := some [some "BOS", some "MIA"],
          game_dates := some [some "a", some "b"],
          game_locations := some [some "", some "@"] }
        none none).map
        (fun r => (r.game_numbers.length, r.pts.map List.length)) =
      some (1, some 2) := by
  rfl

/-- C1 amended: for a RawColumnSet with K rows holding a non-empty
presence-key value, the aligner returns exactly K records: the four filtered
game columns (game_numbers, opp_teams, game_dates, game_locations) each have
length exactly K; the remaining statistic columns are passed through at their
extracted length. -/
theorem c1_aligned_columns_length (player team : String) (ex : ExtractedStats)
    (u o : Option Col) (gns opps dates locs : Col)
    (hg : ex.game_numbers = some gns) (ho : ex.opp_teams = some opps)
    (hd : ex.game_dates = some dates) (hl : ex.game_locations = some locs) :
    (processPlayerCore player team ex u o).map
        (fun r => (r.game_numbers.length, r.opp_teams.length,
          r.game_dates.length, r.game_locations.length)) =
      some (gns.countP (fun v => decide (v ≠ some "")),
        gns.countP (fun v => decide (v ≠ some "")),
        gns.countP (fun v => decide (v ≠ some "")),
        gns.countP (fun v => decide (v ≠ some ""))) := by
  rw [processPlayerCore_eq_some player team ex u o gns opps dates locs hg ho hd hl]
  show some ((cleanData (validIndices gns) gns).length,
      (cleanData (validIndices gns) opps).length,
      (cleanData (validIndices gns) dates).length,
      ((cleanData (validIndices gns) locs).map mapLocation).length) = _
  rw [List.length_map, length_cleanData, length_cleanData, length_cleanData,
    length_cleanData, length_validIndices]

/-- Witness for c1_aligned_columns_length: four rows, three valid. -/
theorem c1_aligned_columns_length_witness :
    (processPlayerCore "p" "t"
        { game_numbers := some [some "1", some "", some "2", some "3"],
          opp_teams := some [some "BOS", some "MIA", some "DEN", some "PHX"],
          game_dates := some [some "d1", some "d2", some "d3", some "d4"],
          game_locations := some [some "", some "@", some "@", some ""] }
        none none).map
        (fun r => (r.game_numbers.length, r.opp_teams.length,
          r.game_dates.length, r.game_locations.length)) =
      some (3, 3, 3, 3) :=
  c1_aligned_columns_length "p" "t" _ none none
    [some "1", some "", some "2", some "3"]
    [some "BOS", some "MIA", some "DEN", some "PHX"]
    [some "d1", some "d2", some "d3", some "d4"]
    [some "", some "@", some "@", some ""] rfl rfl rfl rfl

/-- C4 as stated is refuted: an already-aligned set (no empty presence-key
values) whose location column holds "Away" is changed by a second
application of the aligner, because the location normalization maps the
non-"@" value "Away" to "Home". -/
theorem c4_counterexample :
    (processPlayerCore "p" "t"
        { game_numbers := some [some "1"], opp_teams := some [some "BOS"],
          game_dates := some [some "a"], game_locations := some [some "Away"] }
        none none).map (fun r => r.game_locations) = some [some "Home"] ∧
      [(some "Home" : Cell)] ≠ [some "Away"] :=
  ⟨rfl, by decide⟩

/-- C4 amended: on an already-aligned set (no empty presence-key values, all
columns of the presence-key column's length) the filtering step is the
identity: game_numbers, opp_teams and game_dates are returned unchanged, and
only the location normalization is re-applied to the location column (so in
particular "Away" cells become "Home"). -/
theorem c4_filter_step_identity (player team : String) (ex : ExtractedStats)
    (u o : Option Col) (gns opps dates locs : Col)
    (hg : ex.game_numbers = some gns) (ho : ex.opp_teams = some opps)
    (hd : ex.game_dates = some dates) (hl : ex.game_locations = some locs)
    (hne : ∀ v ∈ gns, v ≠ some "")
    (h1 : opps.length = gns.length) (h2 : dates.length = gns.length)
    (h3 : locs.length = gns.length) :
    (processPlayerCore player team ex u o).map
        (fun r => (r.game_numbers, r.opp_teams, r.game_dates,
          r.game_locations)) =
      some (gns, opps, dates, locs.map mapLocation) := by
  rw [processPlayerCore_eq_some player team ex u o gns opps dates locs hg ho hd hl]
  show some (cleanData (validIndices gns) gns, cleanData (validIndices gns) opps,
      cleanData (validIndices gns) dates,
      (cleanData (validIndices gns) locs).map mapLocation) = _
  rw [validIndices_eq_range gns hne]
  rw [show cleanData (List.range gns.length) gns = gns from cleanData_range_self gns]
  rw [show cleanData (List.range gns.length) opps = opps from
    h1 ▸ cleanData_range_self opps]
  rw [show cleanData (List.range gns.length) dates = dates from
    h2 ▸ cleanData_range_self dates]
  rw [show cleanData (List.range gns.length) locs = locs from
    h3 ▸ cleanData_range_self locs]

/-- Witness for c4_filter_step_identity: a one-row aligned set. -/
theorem c4_filter_step_identity_witness :
    (processPlayerCore "p" "t"
        { game_numbers := some [some "1"], opp_teams := some [some "BOS"],
          game_dates := some [some "a"], game_locations := some [some "@"] }
        none none).map
        (fun r => (r.game_numbers, r.opp_teams, r.game_dates,
          r.game_locations)) =
      some ([some "1"], [some "BOS"], [some "a"], [some "Away"]) :=
  c4_filter_step_identity "p" "t" _ none none
    [some "1"] [some "BOS"] [some "a"] [some "@"] rfl rfl rfl rfl
    (by decide) rfl rfl rfl

/-- C5 as stated is refuted: a column set whose opp_teams column is one entry
longer than the presence-key column (a mismatch that is not the tolerated
shorter-column case) does not fail: the aligner succeeds and silently
truncates the extra entry. -/
theorem c5_counterexample :
    (processPlayerCore "p" "t"
        { game_numbers := some [some "1"],
          opp_teams := some [some "BOS", some "MIA"],
          game_dates := some [some "a"],
          game_locations := some [some ""] }
        none none).map (fun r => r.opp_teams) = some [some "BOS"] := by
  rfl

/-- C5 amended: the aligner performs no column-length validation at all.
Whenever the four game columns are present it succeeds, for arbitrary and
mismatched column lengths; every row index it consults lies below the
presence-key column's length, so entries of longer columns beyond it are
silently dropped (and shorter columns are padded with the absent marker);
failure occurs only for missing columns. -/
theorem c5_no_length_validation (player team : String) (ex : ExtractedStats)
    (u o : Option Col) (gns opps dates locs : Col)
    (hg : ex.game_numbers = some gns) (ho : ex.opp_teams = some opps)
    (hd : ex.game_dates = some dates) (hl : ex.game_locations = some locs) :
    (processPlayerCore player team ex u o).isSome = true ∧
      ∀ i ∈ validIndices gns, i < gns.length := by
  constructor
  · rw [processPlayerCore_eq_some player team ex u o gns opps dates locs hg ho hd hl]
    rfl
  · intro i hi
    obtain ⟨w, hw, -⟩ := (mem_validIndices gns i).mp hi
    exact (List.getElem?_eq_some_iff.mp hw).1

/-- Witness for c5_no_length_validation: mismatched lengths, one valid row. -/
theorem c5_no_length_validation_witness :
    (processPlayerCore "p" "t"
        { game_numbers := some [some "1"],
          opp_teams := some [some "BOS", some "MIA"],
          game_dates := some [],
          game_locations := some [some "", some "@", some "@"] }
        none none).isSome = true ∧
      ∀ i ∈ validIndices [some "1"], i < ([some "1"] : Col).length :=
  c5_no_length_validation "p" "t" _ none none
    [some "1"] [some "BOS", some "MIA"] []
    [some "", some "@", some "@"] rfl rfl rfl rfl

end SFS
